import Mathlib

/-!
Verification of the readiness-coordination and document-load orchestration
layer of the oo-editors repository (the injected common.js patch file,
src/unnamed/part_000).  The definitions below are a shallow embedding of
that file: the readiness barrier (overrideStatus / checkAllReady and the
single-fire promise _commonJsReady), the property and path watchers
(waitForProperty / waitForPath), the minified-SDK fast path, the
document-load entry point DesktopOfflineAppDocumentEndLoad with its
started guard and its Resolving step sequence, and the local-name
derivation DesktopOfflineUpdateLocalName.
-/

namespace OOEditors

/-- JavaScript strings are modelled as lists of characters. -/
abbrev Str := List Char

/-- The fragment of the JavaScript value model the coordination layer
inspects: undefined, null, and objects as association lists from property
names to values. -/
inductive JsVal where
  | undefv : JsVal
  | nullv : JsVal
  | objv : List (String × JsVal) → JsVal

/-- Whether a value is the JavaScript undefined (the comparison
`x !== undefined` used throughout the source). -/
def isUndefinedVal : JsVal → Bool
  | .undefv => true
  | _ => false

/-- JavaScript truthiness restricted to the values of this model
(undefined and null are falsy, objects are truthy). -/
def truthy : JsVal → Bool
  | .undefv => false
  | .nullv => false
  | .objv _ => true

/-- Property lookup on an object field list; a missing key reads as
undefined, as in JavaScript. -/
def jsLookup : List (String × JsVal) → String → JsVal
  | [], _ => .undefv
  | (k, v) :: rest, p => if k = p then v else jsLookup rest p

/-- Property access `obj[prop]`; non-objects have no own properties in
this model. -/
def getProp : JsVal → String → JsVal
  | .objv fields, p => jsLookup fields p
  | _, _ => .undefv

/-! ### Readiness barrier (overrideStatus, checkAllReady, _commonJsReady) -/

/-- The three completion flags of the `overrideStatus` record in common.js. -/
structure OverrideStatus where
  baseEditorsApi : Bool
  fonts : Bool
  sdk : Bool
deriving DecidableEq, Repr

/-- Barrier state: the three flags plus whether the `_commonJsReady`
promise has been resolved.  A JavaScript promise settles at most once, so
later calls of the stored resolve function are no-ops; `fulfilled` is the
settled-or-not bit of that promise. -/
structure BarrierState where
  status : OverrideStatus
  fulfilled : Bool
deriving DecidableEq, Repr

/-- Barrier state at module load: all flags false, promise pending. -/
def initBarrier : BarrierState := ⟨⟨false, false, false⟩, false⟩

/-- The conjunction tested by `checkAllReady`. -/
def allReady (s : OverrideStatus) : Bool := s.baseEditorsApi && s.fonts && s.sdk

/-- `checkAllReady()` from common.js: if every override flag is set,
resolve `_commonJsReady` (resolving an already-settled promise changes
nothing, which the `fulfilled := true` assignment reflects). -/
def checkAllReady (st : BarrierState) : BarrierState :=
  if allReady st.status then { st with fulfilled := true } else st

/-- The three patched subsystems, one per override flag. -/
inductive Subsystem where
  | baseEditorsApi
  | fonts
  | sdk
deriving DecidableEq, Repr

/-- Set the flag of one subsystem (the `overrideStatus.x = true`
assignment at the end of the corresponding override callback). -/
def setFlag (s : OverrideStatus) : Subsystem → OverrideStatus
  | .baseEditorsApi => { s with baseEditorsApi := true }
  | .fonts => { s with fonts := true }
  | .sdk => { s with sdk := true }

/-- One subsystem patch routine completing: set its flag, then call
`checkAllReady()` — exactly the tail of each override callback. -/
def markReady (st : BarrierState) (e : Subsystem) : BarrierState :=
  checkAllReady { st with status := setFlag st.status e }

/-- Run a sequence of subsystem-completion events against the barrier. -/
def runEvents (st : BarrierState) (evs : List Subsystem) : BarrierState :=
  evs.foldl markReady st

/-- Number of pending-to-fulfilled transitions of the completion signal
along a run of events. -/
def firings : BarrierState → List Subsystem → Nat
  | _, [] => 0
  | st, e :: rest =>
    (if !st.fulfilled && (markReady st e).fulfilled then 1 else 0) + firings (markReady st e) rest

/-- Whether a list of events mentions every subsystem at least once. -/
def allMem (evs : List Subsystem) : Bool :=
  decide (Subsystem.baseEditorsApi ∈ evs) && decide (Subsystem.fonts ∈ evs)
    && decide (Subsystem.sdk ∈ evs)

/-- The degrade path shared by the waitForPath timeout branch, the failed
intermediate-object branch and the minified-SDK fast path: set every flag
true, then call `checkAllReady()`. -/
def forceCompleteBarrier (st : BarrierState) : BarrierState :=
  checkAllReady { st with status := ⟨true, true, true⟩ }

/-! ### waitForProperty -/

/-- The state of the watched property as seen through
`Object.getOwnPropertyDescriptor`: no own descriptor, a plain data
property, or an accessor property whose getter currently yields the given
value. -/
inductive PropDesc where
  | absent
  | dataProp (v : JsVal)
  | accessorProp (readsTo : JsVal)

/-- The value produced by reading the property (`obj[prop]`). -/
def descRead : PropDesc → JsVal
  | .absent => .undefv
  | .dataProp v => v
  | .accessorProp g => g

/-- Whether the descriptor has a getter or setter installed
(`descriptor && (descriptor.get || descriptor.set)`). -/
def hasAccessor : PropDesc → Bool
  | .accessorProp _ => true
  | _ => false

/-- The four mutually exclusive ways `waitForProperty` can proceed on
entry. -/
inductive WatchInit where
  | missingTargetDiag
  | calledSync (v : JsVal)
  | pollFallback
  | interceptInstalled

/-- Entry of `waitForProperty(obj, prop, callback)`: a missing target
logs and does nothing; an already-defined value fires the callback
synchronously; an accessor property falls back to a 10ms poll; otherwise
a defineProperty interception is installed. -/
def waitForPropertyInit (obj : Option PropDesc) : WatchInit :=
  match obj with
  | none => .missingTargetDiag
  | some d =>
    if isUndefinedVal (descRead d) = false then .calledSync (descRead d)
    else if hasAccessor d then .pollFallback
    else .interceptInstalled

/-- The interception installed by `waitForProperty`: armed until the
first assignment, then restored to a plain writable data property. -/
inductive InterceptState where
  | armed
  | restored (v : JsVal)

/-- One assignment to the intercepted property.  While armed, the setter
stores the value, redefines the property as a plain data property and
fires the callback (returned as `some value`); once restored, an
assignment is an ordinary write and fires nothing. -/
def interceptAssign : InterceptState → JsVal → InterceptState × Option JsVal
  | .armed, v => (.restored v, some v)
  | .restored _, v => (.restored v, none)

/-- Run a sequence of assignments; the second component collects the
callback invocations in order. -/
def interceptRun : InterceptState → List JsVal → InterceptState × List JsVal
  | s, [] => (s, [])
  | s, v :: rest =>
    ((interceptRun (interceptAssign s v).1 rest).1,
      (match (interceptAssign s v).2 with
        | some c => [c]
        | none => []) ++ (interceptRun (interceptAssign s v).1 rest).2)

/-- The accessor-present fallback poll of `waitForProperty`: an interval
at 10ms cadence that clears itself only when the property becomes
defined.  `definedAt t` tells whether `obj[prop] !== undefined` holds at
elapsed time t; the result says whether the interval has been cleared
after k ticks.  The source installs no deadline on this interval. -/
def fallbackPollCleared (definedAt : Nat → Bool) : Nat → Bool
  | 0 => false
  | k + 1 => fallbackPollCleared definedAt k || definedAt (10 * (k + 1))

/-! ### waitForPath -/

/-- Outcome of the interval loop inside `waitForPath`: the timeout branch
fired (clearing the interval and force-completing the barrier), the
watched property appeared (clearing the interval and descending), or the
loop is still pending after the supplied number of ticks. -/
inductive PollOutcome where
  | timedOut (elapsed : Nat)
  | resolvedAt (elapsed : Nat)
  | stillRunning
deriving DecidableEq, Repr

/-- The interval loop of `waitForPath`.  Tick k of a setInterval with the
given cadence runs at elapsed time `interval * k`; the handler first
tests `Date.now() - startTime > maxWait` (timeout wins over a
simultaneous appearance), then whether the property is defined.  `fuel`
bounds how many ticks are examined; the loop itself terminates because
the timeout test eventually fires. -/
def pathPollFrom (definedAt : Nat → Bool) (interval maxWait : Nat) : Nat → Nat → PollOutcome
  | 0, _ => .stillRunning
  | fuel + 1, k =>
    if maxWait < interval * k then .timedOut (interval * k)
    else if definedAt (interval * k) then .resolvedAt (interval * k)
    else pathPollFrom definedAt interval maxWait fuel (k + 1)

/-- The polling cadence of the waitForPath interval (20ms in the source). -/
def pathPollInterval : Nat := 20

/-- The default overall ceiling of waitForPath (10000ms in the source). -/
def pathMaxWait : Nat := 10000

/-- The synchronous skeleton of the internal `resolve(obj, idx)` of
`waitForPath`: descend while the current object is truthy and owns the
next segment; stop in the interval branch when a segment is missing on a
truthy object; hit the degrade branch when the current object is falsy
(a null or undefined intermediate). -/
inductive ResolveStep where
  | done (v : JsVal)
  | needPoll (v : JsVal) (prop : String)
  | forceComplete

/-- Synchronous descent of `resolve(obj, idx)` over the remaining path
segments. -/
def resolveSync : JsVal → List String → ResolveStep
  | obj, [] => .done obj
  | obj, p :: rest =>
    if truthy obj && !isUndefinedVal (getProp obj p) then resolveSync (getProp obj p) rest
    else if truthy obj then .needPoll obj p
    else .forceComplete

/-! ### Module initialization and the minified-SDK fast path -/

/-- The shape of the hosting window that the fast-path test reads:
whether `window.AscCommon` exists and, if so, whether it has a
`baseEditorsApi` property. -/
structure WindowShape where
  hasAscCommon : Bool
  hasBaseEditorsApi : Bool

/-- `window.AscCommon && !window.AscCommon.baseEditorsApi` — the
minified-SDK signature, computed identically at both test sites of the
source file. -/
def isMinifiedSdk (w : WindowShape) : Bool := w.hasAscCommon && !w.hasBaseEditorsApi

/-- The dotted paths on which the three waitForPath watchers are armed in
the unminified case (the nested `AscCommon.CDocsCoApi` wait is started
later, from inside the third watcher). -/
def pathWatchTargets : List String :=
  ["AscCommon.baseEditorsApi", "AscFonts.CFontFileLoader", "AscCommon.DocumentUrls"]

/-- The window-level globals defined by the part of the file guarded by
`if (!_isMinifiedSdk)`. -/
def entryPointGlobals : List String :=
  ["DesktopOfflineAppDocumentEndLoad", "NativeCorrectImageUrlOnCopy",
   "NativeCorrectImageUrlOnPaste", "UpdateInstallPlugins",
   "DesktopOfflineAppDocumentSignatures", "DesktopSaveQuestionReturn",
   "OnNativeReturnCallback", "asc_IsVisibleSign", "asc_LocalRequestSign",
   "DesktopAfterOpen"]

/-- What running the module script leaves behind: the barrier state, the
path watchers armed, the window globals defined, and whether the
`_commonJsReady` promise was created (it always is, in the first IIFE). -/
structure ModuleInitResult where
  barrier : BarrierState
  armedWatchers : List String
  globalsDefined : List String
  readyPromiseCreated : Bool

/-- Synchronous effect of loading common.js on a window of the given
shape: the minified-SDK signature short-circuits the barrier and arms no
watcher and defines no entry-point global; otherwise the three watchers
are armed and the entry points are defined. -/
def moduleInit (w : WindowShape) : ModuleInitResult :=
  let minified := isMinifiedSdk w
  { barrier := if minified then forceCompleteBarrier initBarrier else initBarrier
  , armedWatchers := if minified then [] else pathWatchTargets
  , globalsDefined := if minified then [] else entryPointGlobals
  , readyPromiseCreated := true }

/-! ### Document-load entry point: the started guard -/

/-- The per-page-load state of the orchestrator entry point: the
`_documentLoadStarted` guard and how many Resolving bodies have been
chained onto `_commonJsReady`. -/
structure OrchState where
  documentLoadStarted : Bool
  resolvingRuns : Nat
deriving DecidableEq, Repr

/-- What one invocation reports: it proceeded past the guard, or it hit
the guard and only emitted the duplicate-call diagnostic. -/
inductive CallOutcome where
  | proceeded
  | duplicateDiag
deriving DecidableEq, Repr

/-- Orchestrator state at page load. -/
def initOrch : OrchState := ⟨false, 0⟩

/-- One call of `DesktopOfflineAppDocumentEndLoad`: if the guard is
already set, warn and return; otherwise set the guard (before suspending
on `_commonJsReady`) and chain the Resolving body. -/
def endLoadCall (st : OrchState) : OrchState × CallOutcome :=
  if st.documentLoadStarted then (st, .duplicateDiag)
  else ({ documentLoadStarted := true, resolvingRuns := st.resolvingRuns + 1 }, .proceeded)

/-- Iterate n invocations of the entry point. -/
def runCalls : OrchState → Nat → OrchState
  | st, 0 => st
  | st, n + 1 => runCalls (endLoadCall st).1 n

/-! ### Base-URL resolution (step 2 of the Resolving sequence) -/

/-- The character class `[a-zA-Z0-9+.-]` of the scheme regex. -/
def isSchemeChar (c : Char) : Bool :=
  c.isAlpha || c.isDigit || c = '+' || c = '.' || c = '-'

/-- Scan for `[a-zA-Z0-9+.-]*:` after the first character. -/
def schemeTail : Str → Bool
  | [] => false
  | c :: rest => if c = ':' then true else if isSchemeChar c then schemeTail rest else false

/-- The test `/^[a-zA-Z][a-zA-Z0-9+.-]*:/.test(url)` of the source: an
alphabetic first character followed by scheme characters up to a colon.
Note that a Windows drive letter such as `C:` satisfies this pattern. -/
def hasScheme : Str → Bool
  | [] => false
  | c :: rest => c.isAlpha && schemeTail rest

/-- `if (url.indexOf("/") != 0) url = "/" + url` — ensure one leading
separator (indexOf of the separator is 0 exactly when the string starts
with it). -/
def ensureLeadingSlash (s : Str) : Str :=
  if s.head? = some '/' then s else '/' :: s

/-- Strip one trailing separator from the override base URL
(`charAt(length-1) === "/"` followed by `substring(0, length-1)`). -/
def stripTrailingSlash (s : Str) : Str :=
  if s.getLast? = some '/' then s.dropLast else s

/-- Step 2 of the Resolving sequence: with a truthy override base URL
(`window._ONLYOFFICE_DOC_BASE_URL`, modelled as `some o`), normalize and
use it; otherwise take the raw locator and, when it does not match the
scheme pattern, ensure a leading separator and put `file://` in front. -/
def resolveDocumentUrl (overrideUrl : Option Str) (url : Str) : Str :=
  match overrideUrl with
  | some o => stripTrailingSlash o
  | none =>
    if hasScheme url then url
    else "file://".data ++ ensureLeadingSlash url

/-! ### The Resolving body of DesktopOfflineAppDocumentEndLoad -/

/-- Error classification constants used by the body
(c_oAscError.ID.ConvertationOpenError, c_oAscError.Level.Critical). -/
inductive ErrCode where
  | convertationOpenError
deriving DecidableEq, Repr

/-- Error severity constants. -/
inductive ErrLevel where
  | critical
  | noCritical
deriving DecidableEq, Repr

/-- The observable steps the Resolving body performs, in order. -/
inductive LoadAction where
  | resolveBaseUrl (u : Str)
  | setOpenedAt
  | setUserId
  | sendError (code : ErrCode) (level : ErrLevel)
  | decodeBase64
  | openDocument (bSerFormat : Bool)
  | setFastCollaborative (b : Bool)
  | scheduleLocalNameUpdate
  | afterOpen
  | sendPasswordEvent (hasPassword : Bool)
deriving DecidableEq, Repr

/-- The reference-token marker tested with `indexOf(...) === 0`. -/
def binaryContentMarker : Str := "binary_content://".data

/-- The Resolving body of `DesktopOfflineAppDocumentEndLoad`, as the
ordered list of steps it executes once `_commonJsReady` has resolved.
Parameters: whether an editor instance exists, whether the opened
document carries a password, the override base URL and raw locator, the
payload string, the host-bridge lookup `GetOpenedFile`, the
`checkStreamSignature` test against the serialized-format signature, and
the bytes `getBinaryArray` would decode from the payload. -/
def endLoadBody (editorPresent : Bool) (hasPassword : Bool)
    (overrideUrl : Option Str) (url dataStr : Str)
    (getOpenedFile : Str → Option (List Nat))
    (checkStreamSignature : List Nat → Bool)
    (decodedData : List Nat) : List LoadAction :=
  if editorPresent = false then []
  else
    LoadAction.resolveBaseUrl (resolveDocumentUrl overrideUrl url) ::
    LoadAction.setOpenedAt :: LoadAction.setUserId ::
    (if dataStr = [] then [LoadAction.sendError .convertationOpenError .critical]
     else if binaryContentMarker.isPrefixOf dataStr then
       match getOpenedFile dataStr with
       | none => [LoadAction.sendError .convertationOpenError .critical]
       | some bytes =>
         [LoadAction.openDocument (checkStreamSignature bytes),
          LoadAction.setFastCollaborative false,
          LoadAction.scheduleLocalNameUpdate,
          LoadAction.afterOpen,
          LoadAction.sendPasswordEvent hasPassword]
     else
       [LoadAction.decodeBase64,
        LoadAction.openDocument (checkStreamSignature decodedData),
        LoadAction.setFastCollaborative false,
        LoadAction.scheduleLocalNameUpdate,
        LoadAction.afterOpen,
        LoadAction.sendPasswordEvent hasPassword])

/-- Whether a step is an asc_onError emission. -/
def isErrorAction : LoadAction → Bool
  | .sendError _ _ => true
  | _ => false

/-- Whether a step is the base64 payload decode. -/
def isDecodeAction : LoadAction → Bool
  | .decodeBase64 => true
  | _ => false

/-- Whether a step hands a document to the editor. -/
def isOpenAction : LoadAction → Bool
  | .openDocument _ => true
  | _ => false

/-! ### DesktopOfflineUpdateLocalName -/

/-- `String.prototype.lastIndexOf` for a single character: the greatest
index holding the character, or -1. -/
def lastIndexOfChar : Str → Char → Int
  | [], _ => -1
  | x :: rest, c =>
    if 0 ≤ lastIndexOfChar rest c then lastIndexOfChar rest c + 1
    else if x = c then 0 else -1

/-- The `-1` to `1000000` sentinel substitution applied to both
lastIndexOf results. -/
def sentinelIndex (i : Int) : Int := if i = -1 then 1000000 else i

/-- The title derivation of `DesktopOfflineUpdateLocalName`: take the
minimum of the (sentinel-adjusted) last backslash index and last slash
index and, when that minimum is not the sentinel, keep the substring
after it. -/
def deriveLocalName (name : Str) : Str :=
  if min (sentinelIndex (lastIndexOfChar name '\\')) (sentinelIndex (lastIndexOfChar name '/'))
      ≠ 1000000
  then name.drop ((min (sentinelIndex (lastIndexOfChar name '\\'))
    (sentinelIndex (lastIndexOfChar name '/'))).toNat + 1)
  else name

/-- Modelled from the spec wording, for comparison with the source
derivation: the final path segment is the substring after the last path
separator, whether slash or backslash — i.e. after the greatest of the
two last-occurrence indexes. -/
def finalPathSegmentSpec (name : Str) : Str :=
  if 0 ≤ max (lastIndexOfChar name '\\') (lastIndexOfChar name '/')
  then name.drop ((max (lastIndexOfChar name '\\') (lastIndexOfChar name '/')).toNat + 1)
  else name

/-- Effect of `DesktopOfflineUpdateLocalName(api)` given the source path
the host bridge reports: the derived title is assigned to
`api.documentTitle`, the asc_onDocumentName event is scheduled, and the
host is notified via SetDocumentName. -/
structure LocalNameEffect where
  documentTitle : Str
  nameEventScheduled : Bool
  hostNotified : Bool
deriving DecidableEq, Repr

/-- The body of `DesktopOfflineUpdateLocalName` as a function of the
source path. -/
def DesktopOfflineUpdateLocalName (sourcePath : Str) : LocalNameEffect :=
  { documentTitle := deriveLocalName sourcePath
  , nameEventScheduled := true
  , hostNotified := true }

/-- The mixed-separator source path used to compare the source derivation
with the spec derivation. -/
def mixedPathExample : Str := "C:\\docs/report.xlsx".data

/-- The Windows locator named by the base-URL testable property. -/
def winPathExample : Str := "C:\\docs\\report.xlsx".data

/-! ## Helper lemmas: readiness barrier -/

theorem checkAllReady_status (st : BarrierState) : (checkAllReady st).status = st.status := by
  unfold checkAllReady
  split <;> rfl

theorem markReady_status (st : BarrierState) (e : Subsystem) :
    (markReady st e).status = setFlag st.status e := by
  unfold markReady
  rw [checkAllReady_status]

theorem markReady_fulfilled (st : BarrierState) (e : Subsystem) :
    (markReady st e).fulfilled = (st.fulfilled || allReady (setFlag st.status e)) := by
  unfold markReady checkAllReady
  split
  · next h => simp [h]
  · next h =>
    simp only [Bool.not_eq_true] at h
    simp [h]

theorem runEvents_nil (st : BarrierState) : runEvents st [] = st := rfl

theorem runEvents_cons (st : BarrierState) (e : Subsystem) (rest : List Subsystem) :
    runEvents st (e :: rest) = runEvents (markReady st e) rest := rfl

theorem runEvents_status_base (st : BarrierState) (evs : List Subsystem) :
    (runEvents st evs).status.baseEditorsApi
      = (st.status.baseEditorsApi || decide (Subsystem.baseEditorsApi ∈ evs)) := by
  induction evs generalizing st with
  | nil => simp [runEvents]
  | cons e rest ih =>
    rw [runEvents_cons, ih, markReady_status]
    cases e <;> simp [setFlag, List.mem_cons]

theorem runEvents_status_fonts (st : BarrierState) (evs : List Subsystem) :
    (runEvents st evs).status.fonts
      = (st.status.fonts || decide (Subsystem.fonts ∈ evs)) := by
  induction evs generalizing st with
  | nil => simp [runEvents]
  | cons e rest ih =>
    rw [runEvents_cons, ih, markReady_status]
    cases e <;> simp [setFlag, List.mem_cons]

theorem runEvents_status_sdk (st : BarrierState) (evs : List Subsystem) :
    (runEvents st evs).status.sdk
      = (st.status.sdk || decide (Subsystem.sdk ∈ evs)) := by
  induction evs generalizing st with
  | nil => simp [runEvents]
  | cons e rest ih =>
    rw [runEvents_cons, ih, markReady_status]
    cases e <;> simp [setFlag, List.mem_cons]

theorem runEvents_allReady (evs : List Subsystem) :
    allReady (runEvents initBarrier evs).status = allMem evs := by
  simp [allReady, allMem, runEvents_status_base, runEvents_status_fonts,
    runEvents_status_sdk, initBarrier]

theorem runEvents_fulfilled (st : BarrierState) (evs : List Subsystem)
    (h : allReady st.status = true → st.fulfilled = true) :
    (runEvents st evs).fulfilled
      = (st.fulfilled || allReady (runEvents st evs).status) := by
  induction evs generalizing st with
  | nil =>
    cases hA : allReady st.status with
    | true => simp [runEvents, h hA]
    | false => simp [runEvents, hA]
  | cons e rest ih =>
    rw [runEvents_cons]
    have h2 : allReady (markReady st e).status = true → (markReady st e).fulfilled = true := by
      intro hA
      rw [markReady_status] at hA
      rw [markReady_fulfilled, hA]
      simp
    rw [ih _ h2, markReady_fulfilled]
    cases hS : allReady (setFlag st.status e) with
    | false => simp
    | true =>
      have hA : allReady (runEvents (markReady st e) rest).status = true := by
        simp only [allReady, Bool.and_eq_true] at hS
        simp only [allReady, runEvents_status_base, runEvents_status_fonts,
          runEvents_status_sdk, markReady_status, hS.1.1, hS.1.2, hS.2]
        simp
      simp [hA]

theorem runEvents_init_fulfilled (evs : List Subsystem) :
    (runEvents initBarrier evs).fulfilled = allMem evs := by
  rw [runEvents_fulfilled initBarrier evs (by simp [initBarrier, allReady]),
    runEvents_allReady]
  simp [initBarrier]

theorem markReady_fulfilled_mono (st : BarrierState) (e : Subsystem)
    (h : st.fulfilled = true) : (markReady st e).fulfilled = true := by
  rw [markReady_fulfilled, h]
  rfl

theorem runEvents_fulfilled_mono (st : BarrierState) (evs : List Subsystem)
    (h : st.fulfilled = true) : (runEvents st evs).fulfilled = true := by
  induction evs generalizing st with
  | nil => exact h
  | cons e rest ih => exact runEvents_cons st e rest ▸ ih _ (markReady_fulfilled_mono st e h)

theorem firings_of_fulfilled (st : BarrierState) (evs : List Subsystem)
    (h : st.fulfilled = true) : firings st evs = 0 := by
  induction evs generalizing st with
  | nil => rfl
  | cons e rest ih =>
    simp [firings, h, ih _ (markReady_fulfilled_mono st e h)]

theorem firings_eq_of_pending (st : BarrierState) (evs : List Subsystem)
    (h : st.fulfilled = false) :
    firings st evs = (if (runEvents st evs).fulfilled = true then 1 else 0) := by
  induction evs generalizing st with
  | nil => simp [firings, runEvents, h]
  | cons e rest ih =>
    rw [runEvents_cons]
    cases h2 : (markReady st e).fulfilled with
    | true =>
      have hz : firings (markReady st e) rest = 0 := firings_of_fulfilled _ _ h2
      have hrun : (runEvents (markReady st e) rest).fulfilled = true :=
        runEvents_fulfilled_mono _ _ h2
      simp [firings, h, h2, hz, hrun]
    | false =>
      simp [firings, h, h2, ih _ h2]

/-! ## Claim theorems C1 and C2 -/

/-- Claim C1: for every sequence of subsystem-ready events (the three patch
routines setting their flags in any relative order, including setting a
flag that is already true), the completion signal of the readiness barrier
ends fulfilled exactly when all three flags were set, transitions from
pending to fulfilled at most once along the run (so a redundant setting of
an already-true flag never causes a second firing, and the transition count
is one exactly when all three subsystems appear), and after any prefix of
the run the signal is fulfilled exactly when that prefix already contains
all three flags — so the single transition happens on the call that makes
the last flag true. -/
theorem C1_readiness_barrier_fires_exactly_once (evs : List Subsystem) :
    (runEvents initBarrier evs).fulfilled = allMem evs
  ∧ firings initBarrier evs = (if allMem evs = true then 1 else 0)
  ∧ ∀ i : Nat, (runEvents initBarrier (evs.take i)).fulfilled = allMem (evs.take i) := by
  refine ⟨runEvents_init_fulfilled evs, ?_, fun i => runEvents_init_fulfilled (evs.take i)⟩
  rw [firings_eq_of_pending _ _ rfl, runEvents_init_fulfilled]

theorem runCalls_of_started (st : OrchState) (n : Nat)
    (h : st.documentLoadStarted = true) : runCalls st n = st := by
  induction n with
  | zero => rfl
  | succ m ih =>
    show runCalls (endLoadCall st).1 m = st
    have he : (endLoadCall st).1 = st := by
      unfold endLoadCall
      rw [if_pos h]
    rw [he]
    exact ih

/-- Claim C2: invoking DesktopOfflineAppDocumentEndLoad any number of times
(at least once) executes the Resolving sequence exactly once: the very
first invocation passes the started guard and chains the body, every state
reached afterwards keeps the guard set with exactly one chained body, and
any further invocation only emits the duplicate diagnostic. -/
theorem C2_duplicate_invocation_noop (n : Nat) :
    (endLoadCall initOrch).2 = CallOutcome.proceeded
  ∧ (runCalls initOrch (n + 1)).resolvingRuns = 1
  ∧ (runCalls initOrch (n + 1)).documentLoadStarted = true
  ∧ (endLoadCall (runCalls initOrch (n + 1))).2 = CallOutcome.duplicateDiag := by
  have h1 : runCalls initOrch (n + 1) = ⟨true, 1⟩ := by
    show runCalls (endLoadCall initOrch).1 n = _
    have he : (endLoadCall initOrch).1 = ⟨true, 1⟩ := rfl
    rw [he]
    exact runCalls_of_started _ n rfl
  refine ⟨rfl, ?_, ?_, ?_⟩ <;> simp [h1, endLoadCall]

/-! ## Claim C3: base-URL resolution -/

/-- Claim C3, counterexample: the locator named by the spec,
C:\docs\report.xlsx, matches the scheme pattern of the source (a drive
letter parses as `[a-zA-Z][a-zA-Z0-9+.-]*:`), so the base-URL resolution
step returns it unchanged — it is neither the forward-slash form
file:///C:/docs/report.xlsx nor the separator-preserving form
file:///C:\docs\report.xlsx the claim calls equivalent. -/
theorem C3_drive_letter_counterexample :
    resolveDocumentUrl none winPathExample = winPathExample
  ∧ hasScheme winPathExample = true
  ∧ resolveDocumentUrl none winPathExample ≠ "file:///C:/docs/report.xlsx".data
  ∧ resolveDocumentUrl none winPathExample ≠ "file:///C:\\docs\\report.xlsx".data := by
  decide

/-- Claim C3, amended: for every locator that does not match the scheme
pattern `[a-zA-Z][a-zA-Z0-9+.-]*:` (a pattern that a Windows drive letter
does satisfy), with no override base URL supplied, the resolution step
ensures a single leading separator and puts the file scheme in front;
the locator C:\docs\report.xlsx, however, carries a recognizable scheme
by that test and is used verbatim. -/
theorem C3_no_scheme_normalization_amended (url : Str) (h : hasScheme url = false) :
    resolveDocumentUrl none url = "file://".data ++ ensureLeadingSlash url
  ∧ (ensureLeadingSlash url).head? = some '/'
  ∧ (url.head? = some '/' → ensureLeadingSlash url = url)
  ∧ resolveDocumentUrl none winPathExample = winPathExample := by
  refine ⟨?_, ?_, ?_, by decide⟩
  · simp [resolveDocumentUrl, h]
  · unfold ensureLeadingSlash
    split
    · assumption
    · rfl
  · intro hh
    unfold ensureLeadingSlash
    rw [if_pos hh]

/-- Witness for C3, amended: a plain relative file name has no scheme and
is normalized into a local-file URI. -/
theorem C3_no_scheme_normalization_amended_witness :
    hasScheme "mydoc.xlsx".data = false
  ∧ resolveDocumentUrl none "mydoc.xlsx".data
      = "file://".data ++ ensureLeadingSlash "mydoc.xlsx".data
  ∧ resolveDocumentUrl none "mydoc.xlsx".data = "file:///mydoc.xlsx".data := by
  refine ⟨by decide, (C3_no_scheme_normalization_amended "mydoc.xlsx".data (by decide)).1, by decide⟩

/-! ## Helper lemmas: waitForPath polling -/

theorem pathPollFrom_timeout_window (d : Nat → Bool) (interval maxWait : Nat) :
    ∀ (fuel k e : Nat), (k = 1 ∨ interval * (k - 1) ≤ maxWait) →
    pathPollFrom d interval maxWait fuel k = PollOutcome.timedOut e →
    maxWait < e ∧ e ≤ maxWait + interval := by
  intro fuel
  induction fuel with
  | zero =>
    intro k e _ h
    exact absurd h (by simp [pathPollFrom])
  | succ m ih =>
    intro k e hk h
    simp only [pathPollFrom] at h
    by_cases h1 : maxWait < interval * k
    · rw [if_pos h1] at h
      have he : interval * k = e := by injection h
      subst he
      refine ⟨h1, ?_⟩
      rcases hk with h2 | h2
      · subst h2
        simp
      · have hk1 : 1 ≤ k := by
          rcases Nat.eq_zero_or_pos k with h0 | h0
          · subst h0
            rw [Nat.mul_zero] at h1
            omega
          · exact h0
        obtain ⟨j, rfl⟩ : ∃ j, k = j + 1 := ⟨k - 1, by omega⟩
        have hj : interval * j ≤ maxWait := by
          have : (j + 1) - 1 = j := by omega
          rw [this] at h2
          exact h2
        calc interval * (j + 1) = interval * j + interval := Nat.mul_succ interval j
          _ ≤ maxWait + interval := Nat.add_le_add_right hj interval
    · rw [if_neg h1] at h
      cases hd : d (interval * k) with
      | true =>
        rw [if_pos hd] at h
        exact absurd h (by simp)
      | false =>
        rw [if_neg (by simp [hd])] at h
        refine ih (k + 1) e (Or.inr ?_) h
        simp only [Nat.add_sub_cancel]
        omega

theorem pathPollFrom_not_running (d : Nat → Bool) (interval maxWait : Nat) :
    ∀ (fuel k : Nat), maxWait < interval * (k + fuel) →
    pathPollFrom d interval maxWait (fuel + 1) k ≠ PollOutcome.stillRunning := by
  intro fuel
  induction fuel with
  | zero =>
    intro k h
    have h' : maxWait < interval * k := by rwa [Nat.add_zero] at h
    show (if maxWait < interval * k then PollOutcome.timedOut (interval * k)
      else if d (interval * k) = true then PollOutcome.resolvedAt (interval * k)
      else pathPollFrom d interval maxWait 0 (k + 1)) ≠ PollOutcome.stillRunning
    rw [if_pos h']
    simp
  | succ m ih =>
    intro k h
    show (if maxWait < interval * k then PollOutcome.timedOut (interval * k)
      else if d (interval * k) = true then PollOutcome.resolvedAt (interval * k)
      else pathPollFrom d interval maxWait (m + 1) (k + 1)) ≠ PollOutcome.stillRunning
    by_cases h1 : maxWait < interval * k
    · rw [if_pos h1]
      simp
    · rw [if_neg h1]
      by_cases hd : d (interval * k) = true
      · rw [if_pos hd]
        simp
      · rw [if_neg hd]
        refine ih (k + 1) ?_
        have hadd : k + 1 + m = k + (m + 1) := by omega
        rw [hadd]
        exact h

/-! ## Claim C4: path-watcher timeout and degrade-to-proceed -/

set_option maxRecDepth 4000 in
/-- Claim C4: with the source constants (20ms cadence, 10000ms ceiling),
whenever the waitForPath interval loop started at tick 1 ends in its
timeout branch, the elapsed time strictly exceeds the ceiling and is at
most one polling interval past it; on a property that never appears the
loop concretely times out at 10020ms; the timeout handler (set all three
flags, checkAllReady) leaves the barrier fully true with the completion
signal fired, from any prior barrier state; and a falsy (null/undefined)
intermediate object makes the synchronous descent take the same
force-complete degrade path immediately. -/
theorem C4_path_watcher_timeout :
    (∀ (d : Nat → Bool) (fuel e : Nat),
        pathPollFrom d pathPollInterval pathMaxWait fuel 1 = PollOutcome.timedOut e →
        pathMaxWait < e ∧ e ≤ pathMaxWait + pathPollInterval)
  ∧ pathPollFrom (fun _ => false) pathPollInterval pathMaxWait 502 1
      = PollOutcome.timedOut 10020
  ∧ (∀ st : BarrierState, (forceCompleteBarrier st).fulfilled = true
      ∧ (forceCompleteBarrier st).status = ⟨true, true, true⟩)
  ∧ resolveSync (JsVal.objv [("AscCommon", JsVal.nullv)]) ["AscCommon", "baseEditorsApi"]
      = ResolveStep.forceComplete := by
  refine ⟨?_, by decide, ?_, rfl⟩
  · intro d fuel e h
    exact pathPollFrom_timeout_window d pathPollInterval pathMaxWait fuel 1 e (Or.inl rfl) h
  · intro st
    constructor
    · simp [forceCompleteBarrier, checkAllReady, allReady]
    · simp [forceCompleteBarrier, checkAllReady, allReady]

set_option maxRecDepth 4000 in
/-- Witness for C4: the inner implication discharged at the concrete
never-appearing property, tick cadence 20, ceiling 10000. -/
theorem C4_path_watcher_timeout_witness :
    pathMaxWait < 10020 ∧ 10020 ≤ pathMaxWait + pathPollInterval :=
  C4_path_watcher_timeout.1 (fun _ => false) 502 10020 (by decide)

/-! ## Helper lemmas: Resolving body error paths -/

theorem endLoadBody_empty_trace (hasPw : Bool) (overrideUrl : Option Str) (url : Str)
    (g : Str → Option (List Nat)) (sig : List Nat → Bool) (dec : List Nat) :
    endLoadBody true hasPw overrideUrl url [] g sig dec
      = [LoadAction.resolveBaseUrl (resolveDocumentUrl overrideUrl url),
         LoadAction.setOpenedAt, LoadAction.setUserId,
         LoadAction.sendError ErrCode.convertationOpenError ErrLevel.critical] := rfl

theorem endLoadBody_refToken_trace (hasPw : Bool) (overrideUrl : Option Str)
    (url dataStr : Str) (g : Str → Option (List Nat)) (sig : List Nat → Bool)
    (dec : List Nat) (hp : binaryContentMarker.isPrefixOf dataStr = true)
    (hg : g dataStr = none) :
    endLoadBody true hasPw overrideUrl url dataStr g sig dec
      = [LoadAction.resolveBaseUrl (resolveDocumentUrl overrideUrl url),
         LoadAction.setOpenedAt, LoadAction.setUserId,
         LoadAction.sendError ErrCode.convertationOpenError ErrLevel.critical] := by
  have hne : ¬dataStr = [] := by
    intro he
    rw [he] at hp
    exact absurd hp (by decide)
  simp [endLoadBody, hne, hp, hg]

/-! ## Claim C5: empty payload and failed reference-token lookup -/

/-- Claim C5: if the payload is the empty string, or is a reference token
(binary_content:// prefix) whose host-bridge lookup returns no data, the
Resolving body stops right after the url/timestamp/user-id steps with a
single asc_onError carrying the ConvertationOpenError classification at
critical severity — the same trace for both triggers — performing no
decode and no document open; and in every case at most one error event is
emitted. -/
theorem C5_conversion_error_halts (hasPw : Bool) (overrideUrl : Option Str)
    (url dataStr : Str) (g : Str → Option (List Nat)) (sig : List Nat → Bool)
    (dec : List Nat) :
    (dataStr = [] →
      endLoadBody true hasPw overrideUrl url dataStr g sig dec
        = [LoadAction.resolveBaseUrl (resolveDocumentUrl overrideUrl url),
           LoadAction.setOpenedAt, LoadAction.setUserId,
           LoadAction.sendError ErrCode.convertationOpenError ErrLevel.critical])
  ∧ (binaryContentMarker.isPrefixOf dataStr = true → g dataStr = none →
      endLoadBody true hasPw overrideUrl url dataStr g sig dec
        = [LoadAction.resolveBaseUrl (resolveDocumentUrl overrideUrl url),
           LoadAction.setOpenedAt, LoadAction.setUserId,
           LoadAction.sendError ErrCode.convertationOpenError ErrLevel.critical])
  ∧ ((dataStr = [] ∨ (binaryContentMarker.isPrefixOf dataStr = true ∧ g dataStr = none)) →
      (endLoadBody true hasPw overrideUrl url dataStr g sig dec).countP isErrorAction = 1
      ∧ (endLoadBody true hasPw overrideUrl url dataStr g sig dec).countP isDecodeAction = 0
      ∧ (endLoadBody true hasPw overrideUrl url dataStr g sig dec).countP isOpenAction = 0)
  ∧ (endLoadBody true hasPw overrideUrl url dataStr g sig dec).countP isErrorAction ≤ 1 := by
  refine ⟨?_, ?_, ?_, ?_⟩
  · intro h
    subst h
    exact endLoadBody_empty_trace hasPw overrideUrl url g sig dec
  · intro hp hg
    exact endLoadBody_refToken_trace hasPw overrideUrl url dataStr g sig dec hp hg
  · intro h
    have ht : endLoadBody true hasPw overrideUrl url dataStr g sig dec
        = [LoadAction.resolveBaseUrl (resolveDocumentUrl overrideUrl url),
           LoadAction.setOpenedAt, LoadAction.setUserId,
           LoadAction.sendError ErrCode.convertationOpenError ErrLevel.critical] := by
      rcases h with h | ⟨hp, hg⟩
      · subst h
        exact endLoadBody_empty_trace hasPw overrideUrl url g sig dec
      · exact endLoadBody_refToken_trace hasPw overrideUrl url dataStr g sig dec hp hg
    rw [ht]
    refine ⟨rfl, rfl, rfl⟩
  · by_cases he : dataStr = []
    · subst he
      rw [endLoadBody_empty_trace]
      simp [List.countP_cons, isErrorAction]
    · by_cases hp : binaryContentMarker.isPrefixOf dataStr = true
      · cases hg : g dataStr with
        | none =>
          rw [endLoadBody_refToken_trace hasPw overrideUrl url dataStr g sig dec hp hg]
          simp [List.countP_cons, isErrorAction]
        | some bytes =>
          simp [endLoadBody, he, hp, hg, List.countP_cons, isErrorAction]
      · simp [endLoadBody, he, hp, List.countP_cons, isErrorAction]

/-- Witness for C5: both triggers at concrete inputs, via the theorem. -/
theorem C5_conversion_error_halts_witness :
    endLoadBody true false none [] [] (fun _ => none) (fun _ => false) []
      = [LoadAction.resolveBaseUrl (resolveDocumentUrl none []),
         LoadAction.setOpenedAt, LoadAction.setUserId,
         LoadAction.sendError ErrCode.convertationOpenError ErrLevel.critical]
  ∧ endLoadBody true false none [] binaryContentMarker (fun _ => none) (fun _ => false) []
      = [LoadAction.resolveBaseUrl (resolveDocumentUrl none []),
         LoadAction.setOpenedAt, LoadAction.setUserId,
         LoadAction.sendError ErrCode.convertationOpenError ErrLevel.critical] := by
  constructor
  · exact (C5_conversion_error_halts false none [] [] (fun _ => none)
      (fun _ => false) []).1 rfl
  · exact (C5_conversion_error_halts false none [] binaryContentMarker (fun _ => none)
      (fun _ => false) []).2.1 (by decide) rfl

/-! ## Claim C6: minified-SDK fast path -/

/-- Claim C6: when the SDK root namespace is present without the
baseEditorsApi extension point, loading the module force-completes the
barrier synchronously — all three flags true, completion signal fulfilled
at startup — and arms none of the three path watchers, so no watcher
timer exists that could elapse. -/
theorem C6_fast_path_detector (w : WindowShape) (h : isMinifiedSdk w = true) :
    (moduleInit w).barrier.fulfilled = true
  ∧ (moduleInit w).barrier.status = ⟨true, true, true⟩
  ∧ (moduleInit w).armedWatchers = [] := by
  refine ⟨?_, ?_, ?_⟩ <;>
    simp [moduleInit, h, forceCompleteBarrier, checkAllReady, allReady, initBarrier]

/-- Witness for C6: the minified signature (AscCommon present, no
baseEditorsApi) at a concrete window shape. -/
theorem C6_fast_path_detector_witness :
    (moduleInit ⟨true, false⟩).barrier.fulfilled = true
  ∧ (moduleInit ⟨true, false⟩).armedWatchers = [] :=
  ⟨(C6_fast_path_detector ⟨true, false⟩ rfl).1,
   (C6_fast_path_detector ⟨true, false⟩ rfl).2.2⟩

/-! ## Helper lemmas: waitForProperty interception -/

theorem interceptRun_restored (w : JsVal) (vs : List JsVal) :
    interceptRun (InterceptState.restored w) vs
      = (InterceptState.restored (vs.getLastD w), []) := by
  induction vs generalizing w with
  | nil => rfl
  | cons v rest ih =>
    show ((interceptRun (InterceptState.restored v) rest).1,
      [] ++ (interceptRun (InterceptState.restored v) rest).2) = _
    rw [ih v, List.getLastD_cons]
    rfl

/-! ## Claim C7: waitForProperty contract -/

/-- Claim C7: waitForProperty with a missing target only logs; with an
already-defined property value it calls back synchronously with that
value; with an undefined value behind an accessor descriptor it falls
back to the 10ms poll instead of installing a second interception; with
an undefined plain property it installs the interception, and then the
first assignment fires the callback exactly once with the assigned value
while every later assignment is an ordinary write that stores its value
and never fires the callback again. -/
theorem C7_waitForProperty_contract :
    waitForPropertyInit none = WatchInit.missingTargetDiag
  ∧ (∀ d : PropDesc, isUndefinedVal (descRead d) = false →
      waitForPropertyInit (some d) = WatchInit.calledSync (descRead d))
  ∧ (∀ d : PropDesc, isUndefinedVal (descRead d) = true → hasAccessor d = true →
      waitForPropertyInit (some d) = WatchInit.pollFallback)
  ∧ (∀ d : PropDesc, isUndefinedVal (descRead d) = true → hasAccessor d = false →
      waitForPropertyInit (some d) = WatchInit.interceptInstalled)
  ∧ (∀ (v : JsVal) (rest : List JsVal),
      (interceptRun InterceptState.armed (v :: rest)).2 = [v])
  ∧ (∀ (w : JsVal) (vs : List JsVal),
      interceptRun (InterceptState.restored w) vs
        = (InterceptState.restored (vs.getLastD w), [])) := by
  refine ⟨rfl, ?_, ?_, ?_, ?_, interceptRun_restored⟩
  · intro d h
    simp [waitForPropertyInit, h]
  · intro d h1 h2
    simp [waitForPropertyInit, h1, h2]
  · intro d h1 h2
    simp [waitForPropertyInit, h1, h2]
  · intro v rest
    show ([] ++ [v]) ++ (interceptRun (InterceptState.restored v) rest).2 = [v]
    rw [interceptRun_restored]
    rfl

/-- Witness for C7: each hypothesis-bearing part applied at a concrete
descriptor or assignment sequence. -/
theorem C7_waitForProperty_contract_witness :
    waitForPropertyInit (some (PropDesc.dataProp JsVal.nullv))
      = WatchInit.calledSync JsVal.nullv
  ∧ waitForPropertyInit (some (PropDesc.accessorProp JsVal.undefv))
      = WatchInit.pollFallback
  ∧ waitForPropertyInit (some PropDesc.absent) = WatchInit.interceptInstalled
  ∧ (interceptRun InterceptState.armed [JsVal.nullv, JsVal.objv []]).2 = [JsVal.nullv] :=
  ⟨C7_waitForProperty_contract.2.1 (PropDesc.dataProp JsVal.nullv) rfl,
   C7_waitForProperty_contract.2.2.1 (PropDesc.accessorProp JsVal.undefv) rfl rfl,
   C7_waitForProperty_contract.2.2.2.1 PropDesc.absent rfl rfl,
   C7_waitForProperty_contract.2.2.2.2.1 JsVal.nullv [JsVal.objv []]⟩

/-! ## Helper lemmas: lastIndexOf -/

theorem lastIndexOfChar_of_not_mem : ∀ (s : Str) (c : Char), c ∉ s →
    lastIndexOfChar s c = -1 := by
  intro s c h
  induction s with
  | nil => rfl
  | cons x rest ih =>
    rw [List.mem_cons, not_or] at h
    have hr := ih h.2
    show (if 0 ≤ lastIndexOfChar rest c then lastIndexOfChar rest c + 1
      else if x = c then 0 else -1) = -1
    rw [hr, if_neg (by omega), if_neg (fun he => h.1 he.symm)]

theorem lastIndexOfChar_of_mem : ∀ (s : Str) (c : Char), c ∈ s →
    0 ≤ lastIndexOfChar s c ∧ lastIndexOfChar s c < (s.length : Int) := by
  intro s c h
  induction s with
  | nil => cases h
  | cons x rest ih =>
    show 0 ≤ (if 0 ≤ lastIndexOfChar rest c then lastIndexOfChar rest c + 1
        else if x = c then 0 else -1)
      ∧ (if 0 ≤ lastIndexOfChar rest c then lastIndexOfChar rest c + 1
        else if x = c then 0 else -1) < ((x :: rest).length : Int)
    by_cases hm : c ∈ rest
    · obtain ⟨h1, h2⟩ := ih hm
      rw [if_pos h1]
      constructor
      · omega
      · rw [List.length_cons]
        push_cast
        omega
    · have hr : lastIndexOfChar rest c = -1 := lastIndexOfChar_of_not_mem rest c hm
      have hx : x = c := by
        rcases List.mem_cons.mp h with h1 | h1
        · exact h1.symm
        · exact absurd h1 hm
      rw [hr, if_neg (by omega), if_pos hx]
      constructor
      · omega
      · rw [List.length_cons]
        push_cast
        omega

theorem deriveLocalName_eq_spec (name : Str) (hlen : name.length ≤ 1000000)
    (hsep : ¬('\\' ∈ name ∧ '/' ∈ name)) :
    deriveLocalName name = finalPathSegmentSpec name := by
  have hlen2 : (name.length : Int) ≤ 1000000 := by exact_mod_cast hlen
  unfold deriveLocalName finalPathSegmentSpec sentinelIndex
  by_cases hb : '\\' ∈ name <;> by_cases hs : '/' ∈ name
  · exact absurd ⟨hb, hs⟩ hsep
  · obtain ⟨h1, h2⟩ := lastIndexOfChar_of_mem name '\\' hb
    have hr : lastIndexOfChar name '/' = -1 := lastIndexOfChar_of_not_mem name '/' hs
    rw [hr, if_neg (show ¬lastIndexOfChar name '\\' = -1 by omega), if_pos rfl,
      min_eq_left (by omega), if_pos (show lastIndexOfChar name '\\' ≠ 1000000 by omega),
      max_eq_left (by omega), if_pos h1]
  · obtain ⟨h1, h2⟩ := lastIndexOfChar_of_mem name '/' hs
    have hr : lastIndexOfChar name '\\' = -1 := lastIndexOfChar_of_not_mem name '\\' hb
    rw [hr, if_neg (show ¬lastIndexOfChar name '/' = -1 by omega), if_pos rfl,
      min_eq_right (by omega), if_pos (show lastIndexOfChar name '/' ≠ 1000000 by omega),
      max_eq_right (by omega), if_pos h1]
  · have hrb : lastIndexOfChar name '\\' = -1 := lastIndexOfChar_of_not_mem name '\\' hb
    have hrs : lastIndexOfChar name '/' = -1 := lastIndexOfChar_of_not_mem name '/' hs
    rw [hrb, hrs, if_pos rfl, min_self, if_neg (by omega), max_self, if_neg (by omega)]

/-! ## Claim C8: display-title derivation -/

/-- Claim C8, counterexample: on a source path mixing both separator
kinds, the source derivation cuts at the minimum of the two
last-occurrence indexes — the earlier separator — so the title is not the
final path segment the claim describes. -/
theorem C8_mixed_separator_counterexample :
    (DesktopOfflineUpdateLocalName mixedPathExample).documentTitle = "docs/report.xlsx".data
  ∧ finalPathSegmentSpec mixedPathExample = "report.xlsx".data
  ∧ (DesktopOfflineUpdateLocalName mixedPathExample).documentTitle
      ≠ finalPathSegmentSpec mixedPathExample := by
  decide

/-- Claim C8, amended: the delayed follow-up derives the title as the
substring after the earlier of the last backslash and the last forward
slash (missing separators replaced by the 1000000 sentinel); whenever the
source path does not mix both separator kinds (and is at most 1000000
characters), this coincides with the final path segment of the claim —
and the derived title is assigned as the document title, the name event
is scheduled, and the host is notified. -/
theorem C8_local_name_amended (name : Str) (hlen : name.length ≤ 1000000)
    (hsep : ¬('\\' ∈ name ∧ '/' ∈ name)) :
    (DesktopOfflineUpdateLocalName name).documentTitle = finalPathSegmentSpec name
  ∧ (DesktopOfflineUpdateLocalName name).nameEventScheduled = true
  ∧ (DesktopOfflineUpdateLocalName name).hostNotified = true :=
  ⟨deriveLocalName_eq_spec name hlen hsep, rfl, rfl⟩

/-- Witness for C8, amended: a pure-backslash Windows path, where the
derived title is the final path segment. -/
theorem C8_local_name_amended_witness :
    (DesktopOfflineUpdateLocalName winPathExample).documentTitle
      = finalPathSegmentSpec winPathExample
  ∧ finalPathSegmentSpec winPathExample = "report.xlsx".data :=
  ⟨(C8_local_name_amended winPathExample (by decide) (by decide)).1, by decide⟩

/-! ## Claim C9: timer lifecycle -/

theorem fallbackPollCleared_never (d : Nat → Bool) (h : ∀ t, d t = false) :
    ∀ k, fallbackPollCleared d k = false := by
  intro k
  induction k with
  | zero => rfl
  | succ m ih => simp [fallbackPollCleared, ih, h]

/-- Claim C9, counterexample: the accessor-present polling fallback of
waitForProperty has no deadline — on a property that never becomes
defined its 10ms interval is still uncleared after 2000 ticks, 20 seconds
of elapsed time, far past the ten-second ceiling any watch deadline
would impose. -/
theorem C9_fallback_timer_counterexample :
    fallbackPollCleared (fun _ => false) 2000 = false
  ∧ pathMaxWait + 10 < 10 * 2000 :=
  ⟨fallbackPollCleared_never (fun _ => false) (fun _ => rfl) 2000, by decide⟩

/-- Claim C9, amended: every waitForPath polling timer is cleared by its
watch outcome — with enough ticks the loop never reports still-running,
and a timeout always lands within one interval past the deadline — while
the waitForProperty accessor fallback timer has no deadline: it stays
uncleared forever when the value never appears, and is cleared when the
value appears at some tick. -/
theorem C9_timer_lifecycle_amended :
    (∀ (d : Nat → Bool) (k fuel : Nat), pathMaxWait < pathPollInterval * (k + fuel) →
      pathPollFrom d pathPollInterval pathMaxWait (fuel + 1) k ≠ PollOutcome.stillRunning)
  ∧ (∀ (d : Nat → Bool) (fuel e : Nat),
      pathPollFrom d pathPollInterval pathMaxWait fuel 1 = PollOutcome.timedOut e →
      pathMaxWait < e ∧ e ≤ pathMaxWait + pathPollInterval)
  ∧ (∀ (d : Nat → Bool), (∀ t, d t = false) → ∀ k, fallbackPollCleared d k = false)
  ∧ (∀ (d : Nat → Bool) (k : Nat), d (10 * (k + 1)) = true →
      fallbackPollCleared d (k + 1) = true) := by
  refine ⟨?_, ?_, fallbackPollCleared_never, ?_⟩
  · intro d k fuel h
    exact pathPollFrom_not_running d pathPollInterval pathMaxWait fuel k h
  · intro d fuel e h
    exact pathPollFrom_timeout_window d pathPollInterval pathMaxWait fuel 1 e (Or.inl rfl) h
  · intro d k h
    simp [fallbackPollCleared, h]

/-- Witness for C9, amended: concrete never-appearing and
immediately-appearing properties. -/
theorem C9_timer_lifecycle_amended_witness :
    pathPollFrom (fun _ => false) pathPollInterval pathMaxWait 502 1
      ≠ PollOutcome.stillRunning
  ∧ fallbackPollCleared (fun _ => false) 3 = false
  ∧ fallbackPollCleared (fun _ => true) 1 = true :=
  ⟨C9_timer_lifecycle_amended.1 (fun _ => false) 1 501 (by decide),
   C9_timer_lifecycle_amended.2.2.1 (fun _ => false) (fun _ => rfl) 3,
   C9_timer_lifecycle_amended.2.2.2 (fun _ => true) 0 rfl⟩

/-! ## Claim C10: minified build defines no entry points -/

/-- Claim C10: when the minified-SDK signature is detected at script
load, this layer defines none of its window-level entry points (the
globalsDefined list is empty) while the readiness promise is still
created and resolved; and the document-load entry point exists exactly in
the unminified build mode, where the full list of helper globals is
defined. -/
theorem C10_minified_build_globals (w : WindowShape) :
    (isMinifiedSdk w = true →
        (moduleInit w).globalsDefined = []
      ∧ (moduleInit w).readyPromiseCreated = true
      ∧ (moduleInit w).barrier.fulfilled = true)
  ∧ (isMinifiedSdk w = false →
        (moduleInit w).globalsDefined = entryPointGlobals
      ∧ "DesktopOfflineAppDocumentEndLoad" ∈ (moduleInit w).globalsDefined) := by
  constructor
  · intro h
    refine ⟨?_, rfl, ?_⟩ <;>
      simp [moduleInit, h, forceCompleteBarrier, checkAllReady, allReady, initBarrier]
  · intro h
    have hg : (moduleInit w).globalsDefined = entryPointGlobals := by
      simp [moduleInit, h]
    refine ⟨hg, ?_⟩
    rw [hg]
    simp [entryPointGlobals]

/-- Witness for C10: both build modes at concrete window shapes. -/
theorem C10_minified_build_globals_witness :
    (moduleInit ⟨true, false⟩).globalsDefined = []
  ∧ "DesktopOfflineAppDocumentEndLoad" ∈ (moduleInit ⟨true, true⟩).globalsDefined :=
  ⟨((C10_minified_build_globals ⟨true, false⟩).1 rfl).1,
   ((C10_minified_build_globals ⟨true, true⟩).2 rfl).2⟩

end OOEditors
